import Mathlib

/-!
Verification development for the whisper-claude repository.

The two source files, `services.py` and `lambda_handler.py`, are shallowly
embedded below.  Pure helpers (key validation, JSON extraction, dictionary
lookups, slicing) are translated directly; effectful steps (object-storage
download and upload, the speech model, the hosted language model) are
modelled by explicit environment records carrying the outcome of each
external call, and exceptions are modelled with `Except`.
-/

namespace WhisperClaude

/-! ### Python string primitives used by the source -/

/-- Index of the first occurrence of a character, as in Python `str.find`
restricted to single characters (before the `-1` encoding). -/
def firstIdx (l : List Char) (c : Char) : Option Nat :=
  match l with
  | [] => none
  | a :: as => if a = c then some 0 else (firstIdx as c).map (· + 1)

/-- Index of the last occurrence of a character, as in Python `str.rfind`
restricted to single characters (before the `-1` encoding). -/
def lastIdx (l : List Char) (c : Char) : Option Nat :=
  match l with
  | [] => none
  | a :: as =>
    match lastIdx as c with
    | some i => some (i + 1)
    | none => if a = c then some 0 else none

/-- Python `str.find` for a single character: index or `-1`. -/
def pyFind (l : List Char) (c : Char) : Int :=
  match firstIdx l c with
  | some i => (i : Int)
  | none => -1

/-- Python `str.rfind` for a single character: index or `-1`. -/
def pyRfind (l : List Char) (c : Char) : Int :=
  match lastIdx l c with
  | some i => (i : Int)
  | none => -1

/-- Python slice `s[i:j]` with the usual clamping and negative-index rules. -/
def pySlice (l : List Char) (i j : Int) : List Char :=
  let n : Int := l.length
  let i' : Int := if i < 0 then max (n + i) 0 else min i n
  let j' : Int := if j < 0 then max (n + j) 0 else min j n
  (l.drop i'.toNat).take (j'.toNat - i'.toNat)

/-- Python `s.startswith(pat)` on explicit character lists. -/
def pyStartswith (pat s : List Char) : Bool :=
  match pat, s with
  | [], _ => true
  | _ :: _, [] => false
  | a :: ps, b :: ss => a == b && pyStartswith ps ss

/-- Python `key.split(sep)[-1]` for a single-character separator:
the segment after the last separator. -/
def lastSegAux (l : List Char) (acc : List Char) : List Char :=
  match l with
  | [] => acc.reverse
  | c :: rest => if c = '/' then lastSegAux rest [] else lastSegAux rest (c :: acc)

/-- The last `/`-separated segment of a key, as `key.split('/')[-1]`. -/
def lastSeg (s : String) : String := String.mk (lastSegAux s.data [])

/-- Python `str.lower`, restricted to ASCII letters (the only characters the
allow-set comparison can be sensitive to). -/
def pyLowerChar (c : Char) : Char :=
  if 'A' ≤ c ∧ c ≤ 'Z' then Char.ofNat (c.toNat + 32) else c

/-- Python `s.lower()` on strings. -/
def pyLower (s : String) : String := String.mk (s.data.map pyLowerChar)

/-! ### `os.path.splitext`, as implemented by `posixpath._splitext` -/

/-- The extension part of `os.path.splitext`: the suffix starting at the last
dot, provided that dot lies after the last path separator and the characters
between the separator and the dot are not all dots (so dotfiles such as
`.bashrc` have no extension). -/
def splitextExtAux (s : List Char) : List Char :=
  match lastIdx s '.' with
  | none => []
  | some d =>
    let start : Nat :=
      match lastIdx s '/' with
      | none => 0
      | some sep => sep + 1
    if start ≤ d then
      if ((s.drop start).take (d - start)).any (fun c => c ≠ '.') then s.drop d else []
    else []

/-- `os.path.splitext(s)[1]` on strings. -/
def splitextExt (s : String) : String := String.mk (splitextExtAux s.data)

/-! ### `validate_audio_file` (services.py lines 206 to 226) -/

/-- The allow-set of audio extensions from `services.py`. -/
def allowed_extensions : List String := [".mp3", ".wav", ".m4a", ".flac", ".ogg", ".aac"]

/-- Embedding of `validate_audio_file`: key must start with `audio/` and the
extension of the lower-cased key must be in the allow-set. -/
def validate_audio_file (file_key : String) : Bool :=
  if !(pyStartswith "audio/".data file_key.data) then false
  else
    let file_extension := splitextExt (pyLower file_key)
    if !(allowed_extensions.contains file_extension) then false
    else true

/-! ### JSON values and a model of `json.loads` -/

/-- JSON values.  Number literals keep their lexeme so that no floating-point
semantics is needed. -/
inductive Json : Type where
  | null : Json
  | bool : Bool → Json
  | num : String → Json
  | str : String → Json
  | arr : List Json → Json
  | obj : List (String × Json) → Json

/-- Value of a hexadecimal digit, case-insensitive (for `\u` escapes). -/
def hexVal (c : Char) : Option Nat :=
  if '0' ≤ c ∧ c ≤ '9' then some (c.toNat - '0'.toNat)
  else if 'a' ≤ c ∧ c ≤ 'f' then some (c.toNat - 'a'.toNat + 10)
  else if 'A' ≤ c ∧ c ≤ 'F' then some (c.toNat - 'A'.toNat + 10)
  else none

/-- Four hexadecimal digits, as used by a `\u` escape. -/
def hex4 (l : List Char) : Option (Nat × List Char) :=
  match l with
  | h1 :: h2 :: h3 :: h4 :: r =>
    match hexVal h1, hexVal h2, hexVal h3, hexVal h4 with
    | some a, some b, some c, some d => some (((a * 16 + b) * 16 + c) * 16 + d, r)
    | _, _, _, _ => none
  | _ => none

/-- Body of a JSON string after the opening quote: returns the decoded
characters and the rest after the closing quote.  Escapes and the strict-mode
ban on raw control characters follow `json.loads`; surrogate pairs in `\u`
escapes are combined. -/
def parseStringBody : Nat → List Char → Option (List Char × List Char)
  | 0, _ => none
  | _, [] => none
  | fuel + 1, c :: rest =>
    if c = '"' then some ([], rest)
    else if c = '\\' then
      match rest with
      | [] => none
      | e :: r =>
        if e = '"' then (parseStringBody fuel r).map (fun p => ('"' :: p.1, p.2))
        else if e = '\\' then (parseStringBody fuel r).map (fun p => ('\\' :: p.1, p.2))
        else if e = '/' then (parseStringBody fuel r).map (fun p => ('/' :: p.1, p.2))
        else if e = 'b' then (parseStringBody fuel r).map (fun p => (Char.ofNat 8 :: p.1, p.2))
        else if e = 'f' then (parseStringBody fuel r).map (fun p => (Char.ofNat 12 :: p.1, p.2))
        else if e = 'n' then (parseStringBody fuel r).map (fun p => ('\n' :: p.1, p.2))
        else if e = 'r' then (parseStringBody fuel r).map (fun p => (Char.ofNat 13 :: p.1, p.2))
        else if e = 't' then (parseStringBody fuel r).map (fun p => ('\t' :: p.1, p.2))
        else if e = 'u' then
          match hex4 r with
          | none => none
          | some (code, r1) =>
            if 0xD800 ≤ code ∧ code ≤ 0xDBFF then
              match r1 with
              | '\\' :: 'u' :: r2raw =>
                match hex4 r2raw with
                | some (code2, r2) =>
                  if 0xDC00 ≤ code2 ∧ code2 ≤ 0xDFFF then
                    (parseStringBody fuel r2).map
                      (fun p => (Char.ofNat (0x10000 + (code - 0xD800) * 0x400 + (code2 - 0xDC00)) :: p.1, p.2))
                  else (parseStringBody fuel r1).map (fun p => (Char.ofNat code :: p.1, p.2))
                | none => (parseStringBody fuel r1).map (fun p => (Char.ofNat code :: p.1, p.2))
              | _ => (parseStringBody fuel r1).map (fun p => (Char.ofNat code :: p.1, p.2))
            else (parseStringBody fuel r1).map (fun p => (Char.ofNat code :: p.1, p.2))
        else none
    else if c.toNat < 32 then none
    else (parseStringBody fuel rest).map (fun p => (c :: p.1, p.2))

/-- Leading decimal digits and the rest. -/
def spanDigits (l : List Char) : List Char × List Char :=
  (l.takeWhile Char.isDigit, l.dropWhile Char.isDigit)

/-- Integer part of a JSON number after an optional sign: `0` or a nonzero
digit followed by digits (leading zeros are rejected, as in `json.loads`). -/
def parseIntPart (l : List Char) : Option (List Char × List Char) :=
  match l with
  | [] => none
  | c :: rest =>
    if c = '0' then some ([c], rest)
    else if c.isDigit then
      let p := spanDigits rest
      some (c :: p.1, p.2)
    else none

/-- Optional fraction part `.digits` of a JSON number. -/
def parseFracPart (l : List Char) : List Char × List Char :=
  match l with
  | '.' :: rest =>
    let p := spanDigits rest
    if p.1.isEmpty then ([], l) else ('.' :: p.1, p.2)
  | _ => ([], l)

/-- Optional exponent part `[eE][+-]?digits` of a JSON number. -/
def parseExpPart (l : List Char) : List Char × List Char :=
  match l with
  | [] => ([], l)
  | e :: rest =>
    if e = 'e' ∨ e = 'E' then
      match rest with
      | [] => ([], l)
      | s :: rest2 =>
        if s = '+' ∨ s = '-' then
          let p := spanDigits rest2
          if p.1.isEmpty then ([], l) else (e :: s :: p.1, p.2)
        else
          let p := spanDigits rest
          if p.1.isEmpty then ([], l) else (e :: p.1, p.2)
    else ([], l)

/-- A JSON number lexeme, per the grammar used by `json.loads`. -/
def parseNumber (l : List Char) : Option (List Char × List Char) :=
  match l with
  | '-' :: rest =>
    match parseIntPart rest with
    | some (ip, r) =>
      let fp := parseFracPart r
      let ep := parseExpPart fp.2
      some ('-' :: (ip ++ fp.1 ++ ep.1), ep.2)
    | none => none
  | _ =>
    match parseIntPart l with
    | some (ip, r) =>
      let fp := parseFracPart r
      let ep := parseExpPart fp.2
      some (ip ++ fp.1 ++ ep.1, ep.2)
    | none => none

/-- Skip JSON whitespace (space, tab, newline, carriage return). -/
def skipWs (l : List Char) : List Char :=
  match l with
  | [] => []
  | c :: rest =>
    if c = ' ' ∨ c = '\t' ∨ c = '\n' ∨ c = '\r' then skipWs rest else c :: rest

mutual

/-- Parse one JSON value (whitespace allowed before it). -/
def parseValue : Nat → List Char → Option (Json × List Char)
  | 0, _ => none
  | fuel + 1, l =>
    match skipWs l with
    | [] => none
    | c :: rest =>
      if c = '"' then
        (parseStringBody (rest.length + 1) rest).map (fun p => (Json.str (String.mk p.1), p.2))
      else if c = '\x7b' then parseObjRest fuel rest
      else if c = '[' then parseArrRest fuel rest
      else
        match c :: rest with
        | 'n' :: 'u' :: 'l' :: 'l' :: r => some (Json.null, r)
        | 't' :: 'r' :: 'u' :: 'e' :: r => some (Json.bool true, r)
        | 'f' :: 'a' :: 'l' :: 's' :: 'e' :: r => some (Json.bool false, r)
        | 'N' :: 'a' :: 'N' :: r => some (Json.num "NaN", r)
        | 'I' :: 'n' :: 'f' :: 'i' :: 'n' :: 'i' :: 't' :: 'y' :: r =>
          some (Json.num "Infinity", r)
        | '-' :: 'I' :: 'n' :: 'f' :: 'i' :: 'n' :: 'i' :: 't' :: 'y' :: r =>
          some (Json.num "-Infinity", r)
        | l2 =>
          match parseNumber l2 with
          | some (lex, r) => some (Json.num (String.mk lex), r)
          | none => none

/-- Parse the rest of a JSON object after the opening brace. -/
def parseObjRest : Nat → List Char → Option (Json × List Char)
  | 0, _ => none
  | fuel + 1, l =>
    match skipWs l with
    | [] => none
    | c :: rest =>
      if c = '\x7d' then some (Json.obj [], rest)
      else if c = '"' then
        match parseMembers fuel (c :: rest) with
        | some (fields, r) => some (Json.obj fields, r)
        | none => none
      else none

/-- Parse one or more `"key": value` members, starting at the quote of the
first key, up to and including the closing brace. -/
def parseMembers : Nat → List Char → Option (List (String × Json) × List Char)
  | 0, _ => none
  | fuel + 1, l =>
    match l with
    | '"' :: rest =>
      match parseStringBody (rest.length + 1) rest with
      | none => none
      | some (key, r1) =>
        match skipWs r1 with
        | ':' :: r2 =>
          match parseValue fuel r2 with
          | none => none
          | some (v, r3) =>
            match skipWs r3 with
            | ',' :: r4 =>
              match skipWs r4 with
              | '"' :: r5 =>
                (parseMembers fuel ('"' :: r5)).map
                  (fun p => ((String.mk key, v) :: p.1, p.2))
              | _ => none
            | '\x7d' :: r4 => some ([(String.mk key, v)], r4)
            | _ => none
        | _ => none
    | _ => none

/-- Parse the rest of a JSON array after the opening bracket. -/
def parseArrRest : Nat → List Char → Option (Json × List Char)
  | 0, _ => none
  | fuel + 1, l =>
    match skipWs l with
    | ']' :: rest => some (Json.arr [], rest)
    | _ =>
      match parseElements fuel l with
      | some (xs, r) => some (Json.arr xs, r)
      | none => none

/-- Parse one or more array elements up to and including the closing
bracket. -/
def parseElements : Nat → List Char → Option (List Json × List Char)
  | 0, _ => none
  | fuel + 1, l =>
    match parseValue fuel l with
    | none => none
    | some (v, r1) =>
      match skipWs r1 with
      | ',' :: r2 => (parseElements fuel r2).map (fun p => (v :: p.1, p.2))
      | ']' :: r2 => some ([v], r2)
      | _ => none

end

/-- Model of `json.loads`: parse one value and require only whitespace after
it. -/
def json_loads (s : String) : Option Json :=
  match parseValue (3 * s.data.length + 8) s.data with
  | none => none
  | some (j, rest) => if skipWs rest = [] then some j else none

/-! ### `analyze_with_claude` (services.py lines 29 to 129)

The hosted-model call is modelled by an `Except String String` carrying either
a transport failure or the raw reply text (`response_body.content[0].text`).
The JSON extraction and the degraded fallback are translated directly. -/

/-- The inference profile identifier, hard-set by `services.py` line 15. -/
def INFERENCE_PROFILE_ARN : String :=
  "arn:aws:bedrock:us-east-1:010526276239:inference-profile/us.anthropic.claude-3-5-sonnet-20241022-v2:0"

/-- The slice `analysis_text[json_start:json_end]` where `json_start` is the
index of the first opening brace (`str.find`) and `json_end` is the index of
the last closing brace plus one (`str.rfind`), exactly as in the source,
including the `-1` results flowing into the slice when a brace is absent. -/
def extract_json_str (analysis_text : String) : String :=
  let json_start := pyFind analysis_text.data '\x7b'
  let json_end := pyRfind analysis_text.data '\x7d' + 1
  String.mk (pySlice analysis_text.data json_start json_end)

/-- The JSON-extraction step of `analyze_with_claude`: parse the extracted
substring, or degrade to the fallback document on a parse failure. -/
def parse_analysis (analysis_text : String) : Json :=
  match json_loads (extract_json_str analysis_text) with
  | some analysis => analysis
  | none =>
    Json.obj
      [("summary", Json.str (String.mk (pySlice analysis_text.data 0 500))),
       ("error", Json.str "Failed to parse structured response"),
       ("raw_response", Json.str analysis_text)]

/-- Embedding of `analyze_with_claude`.  `claude_reply` is the outcome of the
hosted-model invocation; a transport failure propagates, a reply is parsed. -/
def analyze_with_claude (claude_reply : Except String String) : Except String Json :=
  if INFERENCE_PROFILE_ARN = "" then
    Except.error "INFERENCE_PROFILE_ARN environment variable is not set"
  else
    match claude_reply with
    | Except.error e => Except.error e
    | Except.ok analysis_text => Except.ok (parse_analysis analysis_text)

/-! ### `process_audio_file` (services.py lines 131 to 204) -/

/-- The transcription result used by the source: `result["text"]` and the
optional `result.get("duration", 0)`. -/
structure TranscriptionResult where
  text : String
  duration : Option Nat

/-- Metadata block of the persisted Result Document. -/
structure ResultMetadata where
  processed_at : String
  audio_duration : Nat
  model_used : String
  whisper_model : String

/-- The Result Document assembled and persisted by `process_audio_file`. -/
structure ResultDoc where
  id : String
  filename : String
  metadata : ResultMetadata
  original_transcript : String
  analysis : Json

/-- Environment of one pipeline run: the outcome of each external effect.
`fs_after_download` is the local filesystem (path to size) after the
`download_file` attempt, whether or not that attempt raised. -/
structure PipelineEnv where
  isLambda : Bool
  download_ok : Bool
  fs_after_download : List (String × Nat)
  transcribe_result : Except String TranscriptionResult
  claude_reply : Except String String
  timestamp : String
  put_ok : Bool

/-- Outcome of one pipeline run: the returned-or-raised value, the local
filesystem after the `finally` block, what was written to object storage, and
how many times `whisper.load_model` ran. -/
structure PipelineOutcome where
  result : Except String ResultDoc
  fs : List (String × Nat)
  persisted : Option (String × ResultDoc)
  model_loads : Nat

/-- `os.path.exists` on the modelled filesystem. -/
def fsExists (fs : List (String × Nat)) (p : String) : Bool := (fs.lookup p).isSome

/-- `os.path.getsize` on the modelled filesystem. -/
def fsSize (fs : List (String × Nat)) (p : String) : Nat := (fs.lookup p).getD 0

/-- `os.remove` on the modelled filesystem. -/
def fsRemove (fs : List (String × Nat)) (p : String) : List (String × Nat) :=
  fs.filter (fun e => e.1 != p)

/-- `temp_dir` from the source: `/tmp` on Lambda, `.` locally. -/
def temp_dir (env : PipelineEnv) : String := if env.isLambda then "/tmp" else "."

/-- `os.path.join(temp_dir, filename)`. -/
def temp_audio_path (env : PipelineEnv) (filename : String) : String :=
  temp_dir env ++ "/" ++ filename

/-- The `try` body of `process_audio_file`: download, existence and size
checks, model load and transcription, analysis, assembly, persist.  Returns
the raised-or-returned value, what was persisted, and the model-load count. -/
def pipelineBody (env : PipelineEnv) (filename temp : String) :
    Except String ResultDoc × Option (String × ResultDoc) × Nat :=
  if !env.download_ok then (Except.error "download failed", none, 0)
  else if !(fsExists env.fs_after_download temp) then
    (Except.error ("File not found: " ++ temp), none, 0)
  else if fsSize env.fs_after_download temp == 0 then
    (Except.error "Downloaded file is empty", none, 0)
  else
    match env.transcribe_result with
    | Except.error e => (Except.error e, none, 1)
    | Except.ok result =>
      match analyze_with_claude env.claude_reply with
      | Except.error e => (Except.error e, none, 1)
      | Except.ok analysis =>
        let timestamp := env.timestamp
        let complete_result : ResultDoc :=
          { id := timestamp
            filename := filename
            metadata :=
              { processed_at := timestamp
                audio_duration := result.duration.getD 0
                model_used := "Claude 3.5"
                whisper_model := "medium" }
            original_transcript := result.text
            analysis := analysis }
        let result_key := "transcripts/" ++ timestamp ++ ".json"
        if !env.put_ok then (Except.error "put_object failed", none, 1)
        else (Except.ok complete_result, some (result_key, complete_result), 1)

/-- Embedding of `process_audio_file`: run the body, then the `finally`
block, which removes the scratch file if it exists. -/
def process_audio_file (env : PipelineEnv) (filename : String) : PipelineOutcome :=
  let temp := temp_audio_path env filename
  let out := pipelineBody env filename temp
  { result := out.1
    fs := fsRemove env.fs_after_download temp
    persisted := out.2.1
    model_loads := out.2.2 }

/-! ### `lambda_handler` and `get_transcript_from_s3` (lambda_handler.py) -/

/-- One storage-change record of the inbound event
(`record.s3.bucket.name` and `record.s3.object.key`). -/
structure S3Record where
  bucket : String
  key : String

/-- The inbound event, with the fields the router reads.  `none` models an
absent field. -/
structure Event where
  operation : Option String
  records : Option (List S3Record)
  transcript_file : Option String
  transcript_bucket : Option String
  question : Option String

/-- Environment of one router invocation: the pipeline environment, the
object-storage contents for `get_object`, and the Q&A model reply. -/
structure HandlerEnv where
  pipeline : PipelineEnv
  s3_objects : String → String → Option String
  qa_reply : Except String String

/-- The normalized response: status code plus JSON-serializable body. -/
structure LambdaResponse where
  statusCode : Nat
  body : Json

/-- Python truthiness of the optional string parameters tested by
`all([transcript_file, transcript_bucket, question])`. -/
def pyFalsyOpt (o : Option String) : Bool :=
  match o with
  | none => true
  | some s => s.isEmpty

/-- Python `dict.get(k, default)` on a parsed JSON object (last occurrence
wins, as in a dict built by `json.loads`). -/
def pyDictGet (fields : List (String × Json)) (k : String) (dflt : Json) : Json :=
  match fields.reverse.lookup k with
  | some v => v
  | none => dflt

/-- Whether a JSON number lexeme denotes zero (so that its Python value is
falsy). -/
def numIsZero (s : String) : Bool :=
  let beforeExp := s.data.takeWhile (fun c => !(c = 'e' ∨ c = 'E'))
  beforeExp.any Char.isDigit && beforeExp.all (fun c => !c.isDigit || c = '0')

/-- Python truthiness (negated) of a decoded JSON value, as used by
`if not transcript`. -/
def jsonFalsy (j : Json) : Bool :=
  match j with
  | Json.null => true
  | Json.bool b => !b
  | Json.num s => numIsZero s
  | Json.str s => s.isEmpty
  | Json.arr xs => xs.isEmpty
  | Json.obj fs => fs.isEmpty

/-- Embedding of `get_transcript_from_s3`: fetch the object (a missing object
raises), decode it as JSON (a decode failure raises), take the first present
of `original_transcript`, `transcript`, `text` via nested `dict.get`
defaults, and return `none` when that value is falsy. -/
def get_transcript_from_s3 (s3_objects : String → String → Option String)
    (bucket key : String) : Except String (Option Json) :=
  match s3_objects bucket key with
  | none => Except.error "NoSuchKey"
  | some content =>
    match json_loads content with
    | none => Except.error "JSONDecodeError"
    | some (Json.obj fields) =>
      let transcript :=
        pyDictGet fields "original_transcript"
          (pyDictGet fields "transcript" (pyDictGet fields "text" (Json.str "")))
      if jsonFalsy transcript then Except.ok none else Except.ok (some transcript)
    | some _ => Except.error "AttributeError"

/-- Embedding of `qa_with_claude`: fail fast on an empty deployment
identifier, otherwise return the hosted-model outcome verbatim. -/
def qa_with_claude (reply : Except String String) : Except String String :=
  if INFERENCE_PROFILE_ARN = "" then
    Except.error "INFERENCE_PROFILE_ARN environment variable is not set"
  else reply

/-- Serialization of the Result Document for the 200 response body. -/
def ResultDoc.toJson (d : ResultDoc) : Json :=
  Json.obj
    [("id", Json.str d.id),
     ("filename", Json.str d.filename),
     ("metadata",
       Json.obj
         [("processed_at", Json.str d.metadata.processed_at),
          ("audio_duration", Json.num (toString d.metadata.audio_duration)),
          ("model_used", Json.str d.metadata.model_used),
          ("whisper_model", Json.str d.metadata.whisper_model)]),
     ("original_transcript", Json.str d.original_transcript),
     ("analysis", d.analysis)]

/-- Embedding of `lambda_handler`, including the outer exception handler that
turns a propagated pipeline failure into a 500 response. -/
def lambda_handler (env : HandlerEnv) (event : Event) : LambdaResponse :=
  let operation := event.operation.getD "transcribe"
  if operation = "transcribe" then
    match event.records.getD [] with
    | [] =>
      { statusCode := 400
        body := Json.obj [("error", Json.str "Missing S3 event records for transcription")] }
    | record :: _ =>
      let key := record.key
      let filename := lastSeg key
      if !(validate_audio_file key) then
        { statusCode := 400
          body := Json.obj
            [("error",
              Json.str "Invalid file type or location. Please upload audio files to the audio/ folder.")] }
      else
        match (process_audio_file env.pipeline filename).result with
        | Except.ok result => { statusCode := 200, body := ResultDoc.toJson result }
        | Except.error e => { statusCode := 500, body := Json.obj [("error", Json.str e)] }
  else if operation = "q_n_a" then
    if pyFalsyOpt event.transcript_file || pyFalsyOpt event.transcript_bucket
        || pyFalsyOpt event.question then
      { statusCode := 400
        body := Json.obj
          [("error",
            Json.str "Missing required parameters: transcript_file, transcript_bucket, and question")] }
    else
      let tf := event.transcript_file.getD ""
      let tb := event.transcript_bucket.getD ""
      let q := event.question.getD ""
      match get_transcript_from_s3 env.s3_objects tb tf with
      | Except.error e =>
        { statusCode := 500
          body := Json.obj [("error", Json.str ("Error processing Q&A: " ++ e))] }
      | Except.ok none =>
        { statusCode := 404
          body := Json.obj [("error", Json.str "Transcript not found or empty")] }
      | Except.ok (some _) =>
        match qa_with_claude env.qa_reply with
        | Except.error e =>
          { statusCode := 500
            body := Json.obj [("error", Json.str ("Error processing Q&A: " ++ e))] }
        | Except.ok answer =>
          { statusCode := 200
            body := Json.obj
              [("question", Json.str q), ("answer", Json.str answer),
               ("transcript_file", Json.str tf)] }
  else
    { statusCode := 400
      body := Json.obj [("error", Json.str ("Invalid operation: " ++ operation))] }

/-! ### Further definitions used by individual claims -/

/-- Whether `result` came from `return` rather than a raised exception. -/
def isOkE {α : Type} (r : Except String α) : Bool :=
  match r with
  | Except.ok _ => true
  | Except.error _ => false

/-- The `audio_duration` metadata of a pipeline result, when the run
succeeded. -/
def resultDuration (r : Except String ResultDoc) : Option Nat :=
  match r with
  | Except.ok d => some d.metadata.audio_duration
  | Except.error _ => none

/-- Whether a run reaches the `whisper.load_model` line: the download
succeeded, the scratch file exists and is not empty. -/
def reachesModelLoad (env : PipelineEnv) (filename : String) : Bool :=
  env.download_ok && fsExists env.fs_after_download (temp_audio_path env filename)
    && !(fsSize env.fs_after_download (temp_audio_path env filename) == 0)

/-- Total number of `whisper.load_model` executions across two pipeline runs
served by the same process. -/
def loadsAcrossRuns (env1 env2 : PipelineEnv) (f : String) : Nat :=
  (process_audio_file env1 f).model_loads + (process_audio_file env2 f).model_loads

/-- The value of the first of the given field names that is present in a
decoded JSON object, in priority order. -/
def firstPresentField (fields : List (String × Json)) (names : List String) : Option Json :=
  match names with
  | [] => none
  | n :: rest =>
    match fields.reverse.lookup n with
    | some v => some v
    | none => firstPresentField fields rest

/-- A `q_n_a` event carrying the three parameters. -/
def mkQnaEvent (tf tb q : String) : Event :=
  { operation := some "q_n_a"
    records := none
    transcript_file := some tf
    transcript_bucket := some tb
    question := some q }

/-- A pipeline environment in which every external step succeeds and the
transcription result carries no duration field. -/
def envAllOk : PipelineEnv :=
  { isLambda := false
    download_ok := true
    fs_after_download := [("./call1.mp3", 5)]
    transcribe_result := Except.ok { text := "hello world", duration := none }
    claude_reply := Except.ok "\x7b\"leadScore\": 90\x7d"
    timestamp := "20240101_000000"
    put_ok := true }

/-- A pipeline environment whose download step fails. -/
def envDownloadFails : PipelineEnv :=
  { isLambda := false
    download_ok := false
    fs_after_download := []
    transcribe_result := Except.error "unreached"
    claude_reply := Except.error "unreached"
    timestamp := "20240101_000000"
    put_ok := true }

/-- A router environment with no stored objects and failing externals. -/
def envRouterBare : HandlerEnv :=
  { pipeline := envDownloadFails
    s3_objects := fun _ _ => none
    qa_reply := Except.error "model unavailable" }

/-- A router environment whose store holds one transcript object with only a
`text` field. -/
def envRouterWithText : HandlerEnv :=
  { pipeline := envDownloadFails
    s3_objects := fun b k =>
      if b = "bkt" ∧ k = "transcripts/20240101_000000.json" then
        some "\x7b\"text\": \"I want a Python course\"\x7d"
      else none
    qa_reply := Except.ok "a Python course" }

/-- A router environment whose store holds one transcript object whose
`original_transcript` field is empty. -/
def envRouterEmptyTranscript : HandlerEnv :=
  { pipeline := envDownloadFails
    s3_objects := fun b k =>
      if b = "bkt" ∧ k = "transcripts/20240101_000000.json" then
        some "\x7b\"original_transcript\": \"\"\x7d"
      else none
    qa_reply := Except.ok "unused" }

/-- An event with no `operation` field. -/
def evOpAbsent : Event :=
  { operation := none, records := some [], transcript_file := none,
    transcript_bucket := none, question := none }

/-- An event whose `operation` field is neither `transcribe` nor `q_n_a`. -/
def evOpBogus : Event :=
  { operation := some "bogus", records := none, transcript_file := none,
    transcript_bucket := none, question := none }

/-- A `transcribe` event with no storage-change records. -/
def evNoRecords : Event :=
  { operation := some "transcribe", records := none, transcript_file := none,
    transcript_bucket := none, question := none }

/-- A `q_n_a` event with a missing `question` parameter. -/
def evQnaMissing : Event :=
  { operation := some "q_n_a", records := none,
    transcript_file := some "transcripts/t.json", transcript_bucket := some "bkt",
    question := none }

/-- A storage-change record for a valid audio key. -/
def recMain : S3Record := { bucket := "bkt", key := "audio/call1.mp3" }

/-- A second, different storage-change record. -/
def recExtra : S3Record := { bucket := "other", key := "audio/zzz.wav" }

/-- A `transcribe` event carrying a single record. -/
def evTranscribeOne : Event :=
  { operation := some "transcribe", records := some [recMain],
    transcript_file := none, transcript_bucket := none, question := none }

/-- A `transcribe` event carrying the same first record plus an extra one. -/
def evTranscribeTwo : Event :=
  { operation := some "transcribe", records := some [recMain, recExtra],
    transcript_file := none, transcript_bucket := none, question := none }

/-- The same first record, with the `operation` field absent (defaulted). -/
def evTranscribeDefaultOp : Event :=
  { operation := none, records := some [recMain],
    transcript_file := none, transcript_bucket := none, question := none }

/-! ## Helper lemmas -/

theorem pyStartswith_iff (p s : List Char) :
    pyStartswith p s = true ↔ ∃ r, s = p ++ r := by
  induction p generalizing s with
  | nil => simp [pyStartswith]
  | cons a ps ih =>
    cases s with
    | nil => simp [pyStartswith]
    | cons b ss =>
      simp only [pyStartswith, Bool.and_eq_true, beq_iff_eq, ih, List.cons_append,
        List.cons.injEq]
      constructor
      · rintro ⟨rfl, r, rfl⟩
        exact ⟨r, rfl, rfl⟩
      · rintro ⟨r, rfl, rfl⟩
        exact ⟨rfl, r, rfl⟩

theorem contains_allowed_iff (x : String) :
    allowed_extensions.contains x = true ↔
      ∃ e ∈ (["mp3", "wav", "m4a", "flac", "ogg", "aac"] : List String), x = "." ++ e := by
  constructor
  · intro h
    have hm : x ∈ allowed_extensions := by simpa using h
    simp only [allowed_extensions, List.mem_cons, List.not_mem_nil, or_false] at hm
    rcases hm with h1 | h1 | h1 | h1 | h1 | h1 <;> subst h1
    · exact ⟨"mp3", by simp, by decide⟩
    · exact ⟨"wav", by simp, by decide⟩
    · exact ⟨"m4a", by simp, by decide⟩
    · exact ⟨"flac", by simp, by decide⟩
    · exact ⟨"ogg", by simp, by decide⟩
    · exact ⟨"aac", by simp, by decide⟩
  · rintro ⟨e, he, rfl⟩
    fin_cases he <;> decide

theorem lookup_fsRemove (fs : List (String × Nat)) (p : String) :
    (fsRemove fs p).lookup p = none := by
  induction fs with
  | nil => rfl
  | cons e rest ih =>
    cases e with
    | mk a v =>
      by_cases h : a = p
      · simpa [fsRemove, List.filter_cons, h] using ih
      · have h2 : (p == a) = false := by
          simp only [beq_eq_false_iff_ne, ne_eq]
          exact fun hpa => h hpa.symm
        simp only [fsRemove, List.filter_cons] at *
        have hb : ((a, v).1 != p) = true := by
          simp only [bne_iff_ne, ne_eq]
          exact h
        rw [if_pos hb]
        simpa [List.lookup, h2] using ih

/-! ## C1: the Input Validator -/

/-- C1: for every object key, `validate_audio_file` returns true if and only
if the key begins with the literal `audio/` and the extension of the
lower-cased key (so the comparison is case-insensitive) is one of
mp3, wav, m4a, flac, ogg, aac; every key failing either test is rejected. -/
theorem C1_input_validator (k : String) :
    validate_audio_file k = true ↔
      ((∃ r, k.data = "audio/".data ++ r) ∧
       ∃ e ∈ (["mp3", "wav", "m4a", "flac", "ogg", "aac"] : List String),
         splitextExt (pyLower k) = "." ++ e) := by
  constructor
  · intro h
    unfold validate_audio_file at h
    by_cases hp : pyStartswith "audio/".data k.data
    · simp only [hp, Bool.not_true, Bool.false_eq_true, if_false] at h
      refine ⟨(pyStartswith_iff _ _).1 hp, ?_⟩
      by_cases hc : splitextExt (pyLower k) ∈ allowed_extensions
      · exact (contains_allowed_iff _).1 (by simpa using hc)
      · simp [hc] at h
    · simp [hp] at h
  · rintro ⟨⟨r, hr⟩, he⟩
    have hp : pyStartswith "audio/".data k.data = true :=
      (pyStartswith_iff _ _).2 ⟨r, hr⟩
    have hc : allowed_extensions.contains (splitextExt (pyLower k)) = true :=
      (contains_allowed_iff _).2 he
    have hm : splitextExt (pyLower k) ∈ allowed_extensions := by simpa using hc
    unfold validate_audio_file
    simp [hp, hm]

/-! ## C2: the cleanup invariant -/

/-- C2: after every pipeline run, successful or failing at any step, the
scratch file is absent from the local filesystem: the `finally` block removes
it on every exit path. -/
theorem C2_scratch_file_absent (env : PipelineEnv) (filename : String) :
    ((process_audio_file env filename).fs).lookup (temp_audio_path env filename) = none := by
  unfold process_audio_file
  exact lookup_fsRemove _ _

/-! ## C3: failures abort the run and nothing partial is persisted -/

/-- C3: in every pipeline run, a Result Document is written to object storage
exactly when the run returns successfully; any failing step leaves nothing
persisted, a failing download skips the model load entirely, and a propagated
pipeline failure is mapped to a 500 response by the Request Router. -/
theorem C3_persist_iff_success (env : PipelineEnv) (filename : String) :
    ((process_audio_file env filename).persisted.isSome =
      isOkE (process_audio_file env filename).result) ∧
    (∀ e, (process_audio_file env filename).result = Except.error e →
      (process_audio_file env filename).persisted = none) ∧
    (env.download_ok = false → (process_audio_file env filename).model_loads = 0) ∧
    (∀ (henv : HandlerEnv) (ev : Event) (r : S3Record) (t : List S3Record) (e : String),
      henv.pipeline = env →
      ev.operation.getD "transcribe" = "transcribe" →
      ev.records.getD [] = r :: t →
      validate_audio_file r.key = true →
      (process_audio_file env (lastSeg r.key)).result = Except.error e →
      (lambda_handler henv ev).statusCode = 500) := by
  have hmain : (process_audio_file env filename).persisted.isSome =
      isOkE (process_audio_file env filename).result := by
    simp only [process_audio_file, pipelineBody]
    repeat' split
    all_goals rfl
  refine ⟨hmain, ?_, ?_, ?_⟩
  · intro e he
    have h2 := hmain
    rw [he] at h2
    simpa [isOkE] using h2
  · intro hdl
    unfold process_audio_file pipelineBody
    simp [hdl]
  · intro henv ev r t e hpipe hop hrec hval herr
    unfold lambda_handler
    rw [hop, hrec]
    simp only [if_pos rfl]
    rw [hval, hpipe, herr]
    simp

/-! ## C6: the speech model is loaded per call, not memoized -/

/-- C6 counterexample: two successful pipeline runs in the same process load
the speech model twice, so the load is not memoized by process lifetime as
the claim states. -/
theorem C6_counterexample_two_loads :
    loadsAcrossRuns envAllOk envAllOk "call1.mp3" = 2 ∧ (2 : Nat) ≠ 1 := by
  constructor
  · rfl
  · decide

/-- C6 amended: `whisper.load_model("medium")` runs once in every pipeline
run that passes the download, existence and size checks, and zero times
otherwise; there is no process-lifetime memoization, so the number of loads
grows with the number of runs served. -/
theorem C6_amended_load_per_run (env : PipelineEnv) (filename : String) :
    (process_audio_file env filename).model_loads =
      if reachesModelLoad env filename then 1 else 0 := by
  simp only [process_audio_file, pipelineBody, reachesModelLoad]
  repeat' split
  all_goals first | rfl | simp_all

/-! ## Slice and index lemmas for the JSON-extraction claims -/

theorem pySlice_take500 (l : List Char) : pySlice l 0 500 = l.take 500 := by
  simp only [pySlice]
  have h0 : ¬ ((0 : Int) < 0) := by omega
  have hj : ¬ ((500 : Int) < 0) := by omega
  rw [if_neg h0, if_neg hj]
  have h1 : min (0 : Int) (l.length : Int) = 0 := by omega
  rw [h1]
  rcases le_or_lt l.length 500 with h | h
  · have h2 : min (500 : Int) (l.length : Int) = (l.length : Int) := by omega
    rw [h2]
    simp [List.take_of_length_le h]
  · have h2 : min (500 : Int) (l.length : Int) = (500 : Int) := by omega
    rw [h2]
    norm_num
    omega

theorem firstIdx_append (a r : List Char) (c : Char) (ha : c ∉ a) :
    firstIdx (a ++ c :: r) c = some a.length := by
  induction a with
  | nil => simp [firstIdx]
  | cons x xs ih =>
    have hx : ¬ x = c := fun h => ha (by simp [h])
    have hxs : c ∉ xs := fun h => ha (List.mem_cons_of_mem _ h)
    simp [firstIdx, hx, ih hxs]

theorem lastIdx_eq_none (b : List Char) (c : Char) (hb : c ∉ b) :
    lastIdx b c = none := by
  induction b with
  | nil => rfl
  | cons x xs ih =>
    have hx : ¬ x = c := fun h => hb (by simp [h])
    have hxs : c ∉ xs := fun h => hb (List.mem_cons_of_mem _ h)
    simp [lastIdx, ih hxs, hx]

theorem lastIdx_append (l b : List Char) (c : Char) (hb : c ∉ b) :
    lastIdx (l ++ c :: b) c = some l.length := by
  induction l with
  | nil => simp [lastIdx, lastIdx_eq_none b c hb]
  | cons x xs ih => simp [lastIdx, ih]

theorem pySlice_append (a s b : List Char) :
    pySlice (a ++ s ++ b) (a.length : Int) ((a.length : Int) + (s.length : Int)) = s := by
  simp only [pySlice]
  have h0 : ¬ ((a.length : Int) < 0) := by omega
  have h1 : ¬ ((a.length : Int) + (s.length : Int) < 0) := by omega
  rw [if_neg h0, if_neg h1]
  have hlen : (((a ++ s ++ b).length : Nat) : Int) =
      (a.length : Int) + (s.length : Int) + (b.length : Int) := by
    push_cast [List.length_append]
    ring
  have h2 : min ((a.length : Int)) (((a ++ s ++ b).length : Nat) : Int) = (a.length : Int) := by
    rw [hlen]; omega
  have h3 : min ((a.length : Int) + (s.length : Int)) (((a ++ s ++ b).length : Nat) : Int) =
      (a.length : Int) + (s.length : Int) := by
    rw [hlen]; omega
  rw [h2, h3]
  have h4 : ((a.length : Int) + (s.length : Int)).toNat = a.length + s.length := by omega
  have h5 : ((a.length : Int)).toNat = a.length := by omega
  rw [h4, h5]
  have h6 : a.length + s.length - a.length = s.length := by omega
  rw [h6]
  rw [List.append_assoc, List.drop_left]
  exact List.take_left s b

theorem extract_json_str_append (a s b : List Char)
    (ha : '\x7b' ∉ a) (hb : '\x7d' ∉ b)
    (hhead : ∃ t, s = '\x7b' :: t)
    (htail : ∃ s0, s = s0 ++ ['\x7d']) :
    extract_json_str (String.mk (a ++ s ++ b)) = String.mk s := by
  obtain ⟨t, ht⟩ := hhead
  obtain ⟨s0, hs0⟩ := htail
  unfold extract_json_str
  have hfind : pyFind (a ++ s ++ b) '\x7b' = (a.length : Int) := by
    have heq : a ++ s ++ b = a ++ '\x7b' :: (t ++ b) := by
      rw [ht]; simp
    rw [heq]
    unfold pyFind
    rw [firstIdx_append a (t ++ b) '\x7b' ha]
  have hrfind : pyRfind (a ++ s ++ b) '\x7d' = ((a.length + s0.length : Nat) : Int) := by
    have heq : a ++ s ++ b = (a ++ s0) ++ '\x7d' :: b := by
      rw [hs0]; simp
    rw [heq]
    unfold pyRfind
    rw [lastIdx_append (a ++ s0) b '\x7d' hb]
    simp
  have hslen : s.length = s0.length + 1 := by rw [hs0]; simp
  have harg : ((a.length + s0.length : Nat) : Int) + 1 = (a.length : Int) + (s.length : Int) := by
    push_cast [hslen]
    ring
  show String.mk (pySlice (a ++ s ++ b)
      (pyFind (a ++ s ++ b) '\x7b') (pyRfind (a ++ s ++ b) '\x7d' + 1)) = String.mk s
  rw [hfind, hrfind, harg, pySlice_append]

/-! ## C4: degraded fallback document on parse failure -/

/-- C4: when the extracted substring of a hosted-model reply does not parse as
JSON, `analyze_with_claude` does not raise: it returns the degraded document
whose `summary` is the first 500 characters of the raw reply (so at most 500
characters long), whose `error` field is set, and whose `raw_response` holds
the full raw reply. -/
theorem C4_degraded_fallback (analysis_text : String)
    (h : json_loads (extract_json_str analysis_text) = none) :
    analyze_with_claude (Except.ok analysis_text) =
      Except.ok (Json.obj
        [("summary", Json.str (String.mk (analysis_text.data.take 500))),
         ("error", Json.str "Failed to parse structured response"),
         ("raw_response", Json.str analysis_text)]) ∧
    (String.mk (analysis_text.data.take 500)).length ≤ 500 := by
  constructor
  · unfold analyze_with_claude
    rw [if_neg (by decide : ¬ INFERENCE_PROFILE_ARN = "")]
    show Except.ok (parse_analysis analysis_text) = _
    unfold parse_analysis
    rw [h, pySlice_take500]
  · have hlen : (analysis_text.data.take 500).length ≤ 500 := by
      simp [List.length_take]
    exact hlen

/-- C4 witness: a concrete brace-free reply produces exactly the degraded
document. -/
theorem C4_degraded_fallback_witness :
    analyze_with_claude (Except.ok "I cannot produce a structured summary.") =
      Except.ok (Json.obj
        [("summary", Json.str (String.mk ("I cannot produce a structured summary.".data.take 500))),
         ("error", Json.str "Failed to parse structured response"),
         ("raw_response", Json.str "I cannot produce a structured summary.")]) ∧
    (String.mk ("I cannot produce a structured summary.".data.take 500)).length ≤ 500 :=
  C4_degraded_fallback "I cannot produce a structured summary." rfl

/-! ## C5: well-formed replies are parsed exactly -/

/-- C5: for every hosted-model reply of the form `a ++ s ++ b` where `s` is a
JSON object string (starting with the only opening brace before it and ending
with the last closing brace) that parses to `j`, the adapter extracts exactly
`s` (first opening brace to last closing brace), and the returned Analysis
Document equals the parse result `j`. -/
theorem C5_well_formed_reply_parsed (a s b : List Char) (j : Json)
    (ha : '\x7b' ∉ a) (hb : '\x7d' ∉ b)
    (hhead : ∃ t, s = '\x7b' :: t)
    (htail : ∃ s0, s = s0 ++ ['\x7d'])
    (hj : json_loads (String.mk s) = some j) :
    extract_json_str (String.mk (a ++ s ++ b)) = String.mk s ∧
    parse_analysis (String.mk (a ++ s ++ b)) = j ∧
    analyze_with_claude (Except.ok (String.mk (a ++ s ++ b))) = Except.ok j := by
  have hex := extract_json_str_append a s b ha hb hhead htail
  have hp : parse_analysis (String.mk (a ++ s ++ b)) = j := by
    unfold parse_analysis
    rw [hex, hj]
  refine ⟨hex, hp, ?_⟩
  unfold analyze_with_claude
  rw [if_neg (by decide : ¬ INFERENCE_PROFILE_ARN = "")]
  exact congrArg Except.ok hp

/-- C5 witness: a concrete reply with prose around a well-formed JSON object
is parsed to exactly that object. -/
theorem C5_well_formed_reply_parsed_witness :
    extract_json_str (String.mk ("Here is my analysis: ".data ++
        "\x7b\"leadScore\": 90, \"status\": \"COMPLETE\"\x7d".data ++ " end of reply".data)) =
      String.mk "\x7b\"leadScore\": 90, \"status\": \"COMPLETE\"\x7d".data ∧
    parse_analysis (String.mk ("Here is my analysis: ".data ++
        "\x7b\"leadScore\": 90, \"status\": \"COMPLETE\"\x7d".data ++ " end of reply".data)) =
      Json.obj [("leadScore", Json.num "90"), ("status", Json.str "COMPLETE")] ∧
    analyze_with_claude (Except.ok (String.mk ("Here is my analysis: ".data ++
        "\x7b\"leadScore\": 90, \"status\": \"COMPLETE\"\x7d".data ++ " end of reply".data))) =
      Except.ok (Json.obj [("leadScore", Json.num "90"), ("status", Json.str "COMPLETE")]) :=
  C5_well_formed_reply_parsed
    "Here is my analysis: ".data
    "\x7b\"leadScore\": 90, \"status\": \"COMPLETE\"\x7d".data
    " end of reply".data
    (Json.obj [("leadScore", Json.num "90"), ("status", Json.str "COMPLETE")])
    (by decide) (by decide)
    ⟨"\"leadScore\": 90, \"status\": \"COMPLETE\"\x7d".data, rfl⟩
    ⟨"\x7b\"leadScore\": 90, \"status\": \"COMPLETE\"".data, by decide⟩
    rfl

/-- C3 witness: a failing download loads no model, persists nothing, and the
router reports 500. -/
theorem C3_persist_iff_success_witness :
    (process_audio_file envDownloadFails "call1.mp3").model_loads = 0 ∧
    (process_audio_file envDownloadFails "call1.mp3").persisted = none ∧
    (lambda_handler envRouterBare evTranscribeOne).statusCode = 500 := by
  refine ⟨?_, ?_, ?_⟩
  · exact (C3_persist_iff_success envDownloadFails "call1.mp3").2.2.1 rfl
  · exact (C3_persist_iff_success envDownloadFails "call1.mp3").2.1 "download failed" rfl
  · exact (C3_persist_iff_success envDownloadFails "call1.mp3").2.2.2 envRouterBare
      evTranscribeOne recMain [] "download failed" rfl rfl rfl (by decide) rfl

/-! ## C7: router validation paths -/

/-- C7: an absent `operation` field behaves exactly as `transcribe`; any other
operation value returns 400; `transcribe` with no storage-change records
returns 400; `q_n_a` with any of the three parameters missing or empty
returns 400. -/
theorem C7_router_validation (env : HandlerEnv) (event : Event) :
    (event.operation = none →
      lambda_handler env event =
        lambda_handler env { event with operation := some "transcribe" }) ∧
    (∀ op, event.operation = some op → op ≠ "transcribe" → op ≠ "q_n_a" →
      (lambda_handler env event).statusCode = 400) ∧
    (event.operation.getD "transcribe" = "transcribe" → event.records.getD [] = [] →
      (lambda_handler env event).statusCode = 400) ∧
    (event.operation = some "q_n_a" →
      (pyFalsyOpt event.transcript_file || pyFalsyOpt event.transcript_bucket
        || pyFalsyOpt event.question) = true →
      (lambda_handler env event).statusCode = 400) := by
  refine ⟨?_, ?_, ?_, ?_⟩
  · intro h
    cases event with
    | mk op rec tf tb q =>
      simp only at h
      subst h
      rfl
  · intro op hop hn1 hn2
    unfold lambda_handler
    rw [hop]
    simp [Option.getD, hn1, hn2]
  · intro hop hrec
    unfold lambda_handler
    rw [hop, hrec]
    simp
  · intro hop hfal
    unfold lambda_handler
    rw [hop]
    simp only [Option.getD]
    rw [if_neg (by decide : ¬ ("q_n_a" = "transcribe"))]
    simp [hfal]

/-- C7 witness: the four validation paths at concrete events. -/
theorem C7_router_validation_witness :
    (lambda_handler envRouterBare evOpAbsent =
      lambda_handler envRouterBare { evOpAbsent with operation := some "transcribe" }) ∧
    ((lambda_handler envRouterBare evOpBogus).statusCode = 400) ∧
    ((lambda_handler envRouterBare evNoRecords).statusCode = 400) ∧
    ((lambda_handler envRouterBare evQnaMissing).statusCode = 400) := by
  refine ⟨?_, ?_, ?_, ?_⟩
  · exact (C7_router_validation envRouterBare evOpAbsent).1 rfl
  · exact (C7_router_validation envRouterBare evOpBogus).2.1 "bogus" rfl (by decide) (by decide)
  · exact (C7_router_validation envRouterBare evNoRecords).2.2.1 rfl rfl
  · exact (C7_router_validation envRouterBare evQnaMissing).2.2.2 rfl rfl

/-! ## C8: transcript fetch for the question-answering path -/

theorem pyDictGet_chain (fields : List (String × Json)) :
    pyDictGet fields "original_transcript"
      (pyDictGet fields "transcript" (pyDictGet fields "text" (Json.str ""))) =
    (firstPresentField fields ["original_transcript", "transcript", "text"]).getD
      (Json.str "") := by
  cases h1 : fields.reverse.lookup "original_transcript" <;>
    cases h2 : fields.reverse.lookup "transcript" <;>
      cases h3 : fields.reverse.lookup "text" <;>
        simp [pyDictGet, firstPresentField, h1, h2, h3]

/-- C8 counterexample: for a `q_n_a` request whose transcript object is
missing from storage, the router returns 500, not 404 as the claim states
(the missing object makes `get_object` raise, which the inner handler maps to
500). -/
theorem C8_missing_object_is_500 :
    (lambda_handler envRouterBare (mkQnaEvent "transcripts/t.json" "bkt" "what")).statusCode
      = 500 ∧ (500 : Nat) ≠ 404 := by
  constructor
  · rfl
  · decide

/-- C8 amended: with all three parameters present and non-empty, a missing
transcript object raises and yields 500; when the object exists and decodes
to a JSON object, the router extracts the value of the first present of
`original_transcript`, `transcript`, `text` in that priority order, returns
404 exactly when that value is falsy (none of the fields present, or the
first present value empty), and otherwise the fetch returns the extracted
value. -/
theorem C8_transcript_fetch (env : HandlerEnv) (tf tb q : String)
    (htf : tf ≠ "") (htb : tb ≠ "") (hq : q ≠ "") :
    (env.s3_objects tb tf = none →
      (lambda_handler env (mkQnaEvent tf tb q)).statusCode = 500) ∧
    (∀ content fields,
      env.s3_objects tb tf = some content →
      json_loads content = some (Json.obj fields) →
      (get_transcript_from_s3 env.s3_objects tb tf =
        Except.ok
          (if jsonFalsy ((firstPresentField fields
              ["original_transcript", "transcript", "text"]).getD (Json.str ""))
           then none
           else some ((firstPresentField fields
              ["original_transcript", "transcript", "text"]).getD (Json.str "")))) ∧
      (jsonFalsy ((firstPresentField fields
          ["original_transcript", "transcript", "text"]).getD (Json.str "")) = true →
        (lambda_handler env (mkQnaEvent tf tb q)).statusCode = 404)) := by
  have hfgen : ∀ x : String, x ≠ "" → pyFalsyOpt (some x) = false := by
    intro x hx
    simp only [pyFalsyOpt]
    rw [Bool.eq_false_iff]
    intro hemp
    exact hx ((String.isEmpty_iff x).mp hemp)
  have hftf : pyFalsyOpt (some tf) = false := hfgen tf htf
  have hftb : pyFalsyOpt (some tb) = false := hfgen tb htb
  have hfq : pyFalsyOpt (some q) = false := hfgen q hq
  refine ⟨?_, ?_⟩
  · intro hmiss
    have hget : get_transcript_from_s3 env.s3_objects tb tf = Except.error "NoSuchKey" := by
      unfold get_transcript_from_s3
      rw [hmiss]
    simp [lambda_handler, mkQnaEvent, hftf, hftb, hfq, hget]
  · intro content fields hsome hjson
    have hget : get_transcript_from_s3 env.s3_objects tb tf =
        Except.ok
          (if jsonFalsy ((firstPresentField fields
              ["original_transcript", "transcript", "text"]).getD (Json.str ""))
           then none
           else some ((firstPresentField fields
              ["original_transcript", "transcript", "text"]).getD (Json.str ""))) := by
      unfold get_transcript_from_s3
      simp only [hsome, hjson]
      simp only [pyDictGet_chain]
      split_ifs <;> rfl
    refine ⟨hget, ?_⟩
    intro hfal
    rw [if_pos hfal] at hget
    simp [lambda_handler, mkQnaEvent, hftf, hftb, hfq, hget]

/-- C8 witness: a transcript object holding only a `text` field is extracted
by the priority order, and one holding an empty `original_transcript` yields
404. -/
theorem C8_transcript_fetch_witness :
    (get_transcript_from_s3 envRouterWithText.s3_objects "bkt"
        "transcripts/20240101_000000.json" =
      Except.ok (some (Json.str "I want a Python course"))) ∧
    (lambda_handler envRouterEmptyTranscript
        (mkQnaEvent "transcripts/20240101_000000.json" "bkt" "what")).statusCode = 404 := by
  constructor
  · have h := ((C8_transcript_fetch envRouterWithText "transcripts/20240101_000000.json"
        "bkt" "what" (by decide) (by decide) (by decide)).2
        "\x7b\"text\": \"I want a Python course\"\x7d"
        [("text", Json.str "I want a Python course")] rfl rfl).1
    exact h.trans (by rfl)
  · exact ((C8_transcript_fetch envRouterEmptyTranscript "transcripts/20240101_000000.json"
        "bkt" "what" (by decide) (by decide) (by decide)).2
        "\x7b\"original_transcript\": \"\"\x7d"
        [("original_transcript", Json.str "")] rfl rfl).2 rfl

/-! ## C9: only the first record matters -/

/-- C9: two `transcribe` events (explicit or defaulted operation) whose first
storage-change records coincide produce identical responses, whatever the
remaining records are: the router reads only the first record. -/
theorem C9_first_record_only (env : HandlerEnv) (e1 e2 : Event) (r : S3Record)
    (t1 t2 : List S3Record)
    (h1 : e1.operation.getD "transcribe" = "transcribe")
    (h2 : e2.operation.getD "transcribe" = "transcribe")
    (hr1 : e1.records.getD [] = r :: t1)
    (hr2 : e2.records.getD [] = r :: t2) :
    lambda_handler env e1 = lambda_handler env e2 := by
  unfold lambda_handler
  rw [h1, h2, hr1, hr2]
  simp

/-- C9 witness: dropping the second record of a two-record event does not
change the response. -/
theorem C9_first_record_only_witness :
    lambda_handler envRouterBare evTranscribeTwo =
      lambda_handler envRouterBare evTranscribeDefaultOp :=
  C9_first_record_only envRouterBare evTranscribeTwo evTranscribeDefaultOp recMain
    [recExtra] [] rfl rfl rfl rfl

/-! ## C10: a missing duration defaults to zero -/

/-- C10: in every successful pipeline run whose transcription result has no
duration field, the Result Document records `audio_duration = 0`. -/
theorem C10_missing_duration_zero (env : PipelineEnv) (filename : String)
    (tr : TranscriptionResult)
    (htr : env.transcribe_result = Except.ok tr)
    (hdur : tr.duration = none)
    (hok : isOkE (process_audio_file env filename).result = true) :
    resultDuration (process_audio_file env filename).result = some 0 := by
  simp only [process_audio_file, pipelineBody, htr] at hok ⊢
  repeat' split at hok
  all_goals simp_all [isOkE, resultDuration, hdur]

/-- C10 witness: the all-success environment with no duration yields
`audio_duration = 0`. -/
theorem C10_missing_duration_zero_witness :
    resultDuration (process_audio_file envAllOk "call1.mp3").result = some 0 :=
  C10_missing_duration_zero envAllOk "call1.mp3"
    { text := "hello world", duration := none } rfl rfl rfl

end WhisperClaude
